import Mathlib

/-!
Verification development for the Api-fetcher-carros-fastapi repository.

The repository has two Python source files:
  * `olx_client.py` — text normalizers, query URL builder, fetch orchestrator
    and the HTML-card listing extractor `search_olx`;
  * `main.py`       — the FastAPI layer: `/health`, a mock `/stats` handler,
    `/search`, and a second (statistics-computing) `/stats` handler.

The shallow embedding below translates those functions into Lean.  Python
machine floats are modelled as rationals (`ℚ`): every arithmetic expression
appearing in the claims is exact at that granularity.  Python strings are
modelled as Lean `String` and processed on their character lists.  The
outcome of the single outbound HTTP request, and the card list produced by
the BeautifulSoup selector `section.olx-adcard`, are inputs of the embedded
functions, since they come from the network.
-/

namespace CarFetcher

/-- Python whitespace for `str.strip` and the regex class `\s`
(ASCII part; the inputs of interest contain only plain spaces). -/
def isPyWs (c : Char) : Bool :=
  c = ' ' || c = '\t' || c = '\n' || c = '\r' || c = '\x0b' || c = '\x0c'

/-- Strip leading and trailing whitespace, as Python `str.strip()`. -/
def pyStripList (l : List Char) : List Char :=
  ((l.dropWhile isPyWs).reverse.dropWhile isPyWs).reverse

/-- Python `str.strip()` on a `String`. -/
def pyStrip (s : String) : String :=
  String.mk (pyStripList s.data)

/-- Python `str.lower()` (ASCII letters; the accented keywords used by the
source are written lower-case already). -/
def pyLower (s : String) : String :=
  String.mk (s.data.map Char.toLower)

/-- Python `str.upper()` (ASCII letters). -/
def pyUpper (s : String) : String :=
  String.mk (s.data.map Char.toUpper)

/-- Boolean prefix test on character lists. -/
def isPrefixList : List Char → List Char → Bool
  | [], _ => true
  | _ :: _, [] => false
  | a :: as, b :: bs => a = b && isPrefixList as bs

/-- Python substring containment `needle in hay`. -/
def subList (n : List Char) : List Char → Bool
  | [] => isPrefixList n []
  | c :: rest => isPrefixList n (c :: rest) || subList n rest

/-- Python `needle in hay` on strings. -/
def containsSub (needle hay : String) : Bool :=
  subList needle.data hay.data

/-- Remove every occurrence of the two-character pattern `R$`, left to
right and non-overlapping, as Python `text.replace("R$", "")`. -/
def removeRS : List Char → List Char
  | 'R' :: '$' :: rest => removeRS rest
  | c :: rest => c :: removeRS rest
  | [] => []

/-- Value of an ASCII digit string, as Python `int` on it. -/
def digitsToNat (l : List Char) : Nat :=
  l.foldl (fun n c => 10 * n + (c.toNat - 48)) 0

/-- First match of the regex `(\d+(\.\d+)?)`: scan left to right for a
digit, take the maximal digit run and, when a dot followed by a digit
comes next, the dot and the following maximal digit run. -/
def numToken : List Char → Option (List Char)
  | [] => none
  | c :: rest =>
    if c.isDigit then
      let ds := (c :: rest).takeWhile Char.isDigit
      let after := (c :: rest).drop ds.length
      match after with
      | '.' :: d :: _ =>
        if d.isDigit then
          some (ds ++ '.' :: (after.drop 1).takeWhile Char.isDigit)
        else some ds
      | _ => some ds
    else numToken rest

/-- Rational value of a token matched by `(\d+(\.\d+)?)`, as Python
`float` of it (floats are modelled as exact rationals): the value of the
decimal literal `ip.fs` is the single fraction `(ip·10^k + fs) / 10^k`
where `k` is the number of fractional digits. -/
def tokenToRat (t : List Char) : ℚ :=
  let ip := t.takeWhile Char.isDigit
  match t.drop ip.length with
  | '.' :: fs => mkRat (digitsToNat ip * 10 ^ fs.length + digitsToNat fs) (10 ^ fs.length)
  | _ => mkRat (digitsToNat ip) 1

/-- Embedding of `olx_client._parse_price`: drop `R$`, thousands dots and
spaces, strip, turn the decimal comma into a dot, then take the first
match of `(\d+(\.\d+)?)` as a number.  `None` and the empty string are
falsy in Python, hence map to `none`. -/
def parse_price (text : Option String) : Option ℚ :=
  match text with
  | none => none
  | some s =>
    if s = "" then none
    else
      let cs := removeRS s.data
      let cs := cs.filter (fun c => c ≠ '.')
      let cs := cs.filter (fun c => c ≠ ' ')
      let cs := pyStripList cs
      let cs := cs.map (fun c => if c = ',' then '.' else c)
      (numToken cs).map tokenToRat

/-- First match of the regex `(\d[\d\.]*)\s*km`: at each digit position,
the maximal run over `[\d.]`, optional whitespace, then the literal `km`.
Shortening the greedy run cannot help (the exposed character would be a
digit or a dot, never `k`), so maximal munch is exact here. -/
def kmGroup : List Char → Option (List Char)
  | [] => none
  | c :: rest =>
    if c.isDigit then
      let run := (c :: rest).takeWhile (fun x => x.isDigit || x = '.')
      let after := ((c :: rest).drop run.length).dropWhile isPyWs
      if isPrefixList ['k', 'm'] after then some run else kmGroup rest
    else kmGroup rest

/-- Embedding of `olx_client._parse_km`: lower-case the text, search for
`(\d[\d\.]*)\s*km`, drop the dots of the matched group and read it as an
integer. -/
def parse_km (text : Option String) : Option Nat :=
  match text with
  | none => none
  | some s =>
    if s = "" then none
    else (kmGroup (s.data.map Char.toLower)).map
      (fun g => digitsToNat (g.filter (fun c => c ≠ '.')))

/-- Python `\w` (word character) restricted to the Latin-1 range used by
the site: ASCII alphanumerics, the underscore, and every non-ASCII
character (the accented Latin letters of the inputs). -/
def isWordChar (c : Char) : Bool :=
  c.isAlphanum || c = '_' || decide (c.toNat ≥ 128)

/-- First match of the regex `\b(19|20)\d{2}\b`, scanning left to right;
`prev` is the character just before the current position. -/
def yearScan (prev : Option Char) : List Char → Option Nat
  | d1 :: d2 :: d3 :: d4 :: rest =>
    if ((d1 = '1' && d2 = '9') || (d1 = '2' && d2 = '0')) && d3.isDigit && d4.isDigit
        && (match prev with | none => true | some p => !(isWordChar p))
        && (match rest with | [] => true | r :: _ => !(isWordChar r)) then
      some (digitsToNat [d1, d2, d3, d4])
    else yearScan (some d1) (d2 :: d3 :: d4 :: rest)
  | _ => none

/-- Embedding of `olx_client._parse_year_from_title`: first 4-digit token
starting with 19 or 20 and delimited by word boundaries. -/
def parse_year_from_title (title : Option String) : Option Int :=
  match title with
  | none => none
  | some s =>
    if s = "" then none
    else (yearScan none s.data).map (fun n => (n : Int))

/-- Claim C8: the Text Normalizers map the specified example inputs to the
specified outputs — two parsable and two unparsable prices, three mileage
strings, and year extraction from a title with and without a 19xx/20xx
token. -/
theorem text_normalizer_examples :
    parse_price (some "R$ 45.000,00") = some 45000
    ∧ parse_price (some "R$ 12.345,67") = some (1234567 / 100)
    ∧ parse_price (some "") = none
    ∧ parse_price (some "consulte") = none
    ∧ parse_km (some "73.000 km") = some 73000
    ∧ parse_km (some "73000km") = some 73000
    ∧ parse_km (some "km") = none
    ∧ parse_year_from_title (some "Honda Civic 2015 automático") = some 2015
    ∧ parse_year_from_title (some "Honda Civic automático") = none := by
  refine ⟨by decide, ?_, by decide, by decide, by decide, by decide, by decide,
    by decide, by decide⟩
  have h : parse_price (some "R$ 12.345,67") = some (mkRat 1234567 100) := by decide
  rw [h, Rat.mkRat_eq_div]
  norm_num

/-- Fixed base URL of the cars category on the origin site
(`olx_client.BASE_URL`). -/
def BASE_URL : String := "https://www.olx.com.br/autos-e-pecas/carros-vans-e-utilitarios/"

/-- One `section.olx-adcard` element of the fetched page, at the
granularity the extractor reads it: presence and stripped text of the
selected sub-elements, the `data-id` attribute, the detail-chip texts, and
whether the tree traversal of this card raises an exception (the source
wraps each card in a try block). -/
structure Card where
  title : Option String
  href : Option String
  dataId : Option String
  priceText : Option String
  locText : Option String
  chips : List String
  raises : Bool
deriving DecidableEq, Repr

/-- The `OlxListing` dataclass of `olx_client.py`.  Its `data_coleta`
field has the Python default `time.time()`, evaluated once at class
definition time; the embedding passes that single module-load timestamp in
explicitly as `defTime` wherever the dataclass default applies. -/
structure OlxListing where
  id : String
  title : String
  url : String
  modelo : Option String
  ano : Option Int
  cidade : Option String
  preco : Option ℚ
  km : Option Nat
  cambio : Option String
  combustivel : Option String
  fonte : String
  data_coleta : ℚ
deriving DecidableEq, Repr

/-- Python `a or b` on optional strings: `None` and the empty string are
falsy. -/
def pyOrS (a : Option String) (b : Option String) : Option String :=
  match a with
  | none => b
  | some s => if s = "" then b else some s

/-- Python `a or b` where `a` is an optional integer: `None` and `0` are
falsy. -/
def pyOrInt (a : Option Int) (b : Option Int) : Option Int :=
  match a with
  | none => b
  | some x => if x = 0 then b else some x

/-- Python `str.startswith("/")`. -/
def startsWithSlash (s : String) : Bool :=
  match s.data with
  | '/' :: _ => true
  | _ => false

/-- One step of the detail-chip loop of `search_olx`: a chip containing
`km` updates the mileage (even when its parse fails), otherwise a chip
containing a transmission keyword becomes the transmission, otherwise a
chip containing a fuel keyword becomes the fuel; the last qualifying chip
per category wins.  State is `(km, cambio, combustivel)`. -/
def chipStep (st : Option Nat × Option String × Option String) (chip : String) :
    Option Nat × Option String × Option String :=
  if containsSub "km" chip then
    (parse_km (some chip), st.2.1, st.2.2)
  else if containsSub "manual" chip || containsSub "automático" chip
      || containsSub "automatica" chip then
    (st.1, some chip, st.2.2)
  else if ["flex", "gasolina", "diesel", "álcool", "alcool", "etanol"].any
      (fun k => containsSub k chip) then
    (st.1, st.2.1, some chip)
  else st

/-- Translation of the per-card body of the loop in `search_olx`
(`olx_client.py`, lines 164-228): field extraction, URL resolution,
id fallback, price/location/year parsing, chip classification, and the
`OlxListing` construction with its definition-time `data_coleta` default. -/
def parseCard (defTime : ℚ) (modelo : String) (ano : Option Int)
    (cidade : Option String) (card : Card) : OlxListing :=
  let title := pyStrip (card.title.getD "")
  let url_rel := card.href.getD ""
  let url_full := if startsWithSlash url_rel then BASE_URL ++ url_rel else url_rel
  let ad_id := match card.dataId with
    | some s => if s = "" then url_full else s
    | none => url_full
  let preco := parse_price card.priceText
  let cidade_txt : Option String := match card.locText with
    | none => none
    | some raw =>
      if raw = "" then none
      else some (pyStrip (String.mk (raw.data.takeWhile (fun c => c ≠ ','))))
  let year := pyOrInt ano (parse_year_from_title (some title))
  let st := (card.chips.map pyLower).foldl chipStep (none, none, none)
  let yearStr := match year with
    | none => ""
    | some y => if y = 0 then "" else toString y
  { id := ad_id
    title := if title = "" then modelo ++ " " ++ yearStr else title
    url := url_full
    modelo := some (pyUpper modelo)
    ano := year
    cidade := pyOrS cidade_txt cidade
    preco := preco
    km := st.1
    cambio := st.2.1
    combustivel := st.2.2
    fonte := "olx"
    data_coleta := defTime }

/-- A card produces a listing unless its tree traversal raises, in which
case the card is skipped (the except branch of the loop). -/
def parseCardOpt (defTime : ℚ) (modelo : String) (ano : Option Int)
    (cidade : Option String) (card : Card) : Option OlxListing :=
  if card.raises then none else some (parseCard defTime modelo ano cidade card)

/-- The listing kept by the `max_price` test of `search_olx`: a listing is
discarded only when a ceiling is given, its price is present, and the
price exceeds the ceiling. -/
def keepListing (max_price : Option ℚ) (l : OlxListing) : Bool :=
  match max_price, l.preco with
  | some mp, some pr => decide (pr ≤ mp)
  | _, _ => true

/-- The card loop of `search_olx` with its accumulator: skip a raising
card, discard a listing over the price ceiling, otherwise append, and stop
as soon as the accumulated length reaches `max_items` (the check runs
after the append). -/
def extractLoop (defTime : ℚ) (modelo : String) (ano : Option Int)
    (cidade : Option String) (max_price : Option ℚ) (max_items : Nat) :
    List Card → List OlxListing → List OlxListing
  | [], acc => acc
  | card :: rest, acc =>
    match parseCardOpt defTime modelo ano cidade card with
    | none => extractLoop defTime modelo ano cidade max_price max_items rest acc
    | some l =>
      if keepListing max_price l then
        let acc2 := acc ++ [l]
        if max_items ≤ acc2.length then acc2
        else extractLoop defTime modelo ano cidade max_price max_items rest acc2
      else extractLoop defTime modelo ano cidade max_price max_items rest acc

/-- Outcome of the single outbound GET issued by `search_olx`: either a
network-level failure (the except branch around `requests.get`) or a
response with a status code and, after HTML parsing, the list of ad
cards selected by `section.olx-adcard`. -/
inductive FetchResult where
  | netError : FetchResult
  | success : Nat → List Card → FetchResult
deriving DecidableEq, Repr

/-- Embedding of `olx_client.search_olx`: a network failure or a non-200
status yields the empty list; otherwise the card loop runs on the selected
cards with an empty accumulator. -/
def search_olx (defTime : ℚ) (modelo : String) (ano : Option Int)
    (cidade : Option String) (max_price : Option ℚ) (max_items : Nat)
    (fetch : FetchResult) : List OlxListing :=
  match fetch with
  | .netError => []
  | .success status cards =>
    if status ≠ 200 then []
    else extractLoop defTime modelo ano cidade max_price max_items cards []

/-- The Pydantic `Listing` transport model of `main.py`. -/
structure Listing where
  id : String
  title : String
  url : String
  modelo : Option String
  ano : Option Int
  cidade : Option String
  preco : Option ℚ
  km : Option Nat
  cambio : Option String
  combustivel : Option String
  data_coleta : ℚ
  fonte : String
deriving DecidableEq, Repr

/-- The field-by-field `OlxListing` to `Listing` conversion in the body of
the `/search` handler. -/
def toListing (l : OlxListing) : Listing :=
  { id := l.id, title := l.title, url := l.url, modelo := l.modelo,
    ano := l.ano, cidade := l.cidade, preco := l.preco, km := l.km,
    cambio := l.cambio, combustivel := l.combustivel,
    data_coleta := l.data_coleta, fonte := l.fonte }

/-- The Pydantic `SearchResponse` model of `main.py`. -/
structure SearchResponse where
  items : List Listing
  count : Nat
  next_page : Option Int
deriving DecidableEq, Repr

/-- The Pydantic `StatsResponse` model of `main.py`. -/
structure StatsResponse where
  n : Nat
  media : Option ℚ
  mediana : Option ℚ
  p25 : Option ℚ
  p75 : Option ℚ
  updated_at : ℚ
deriving DecidableEq, Repr

/-- Python slice `l[a:b]` for arbitrary integer bounds: a negative bound
counts from the end, bounds are clamped to the list, and the elements from
the normalized start up to the normalized stop are returned. -/
def pySlice {α : Type} (l : List α) (a b : Int) : List α :=
  let n : Int := l.length
  let norm : Int → Nat := fun i => if i < 0 then (n + i).toNat else (min i n).toNat
  (l.take (norm b)).drop (norm a)

/-- Python truthiness of the key check in `_check_api_key`: the request
is rejected iff a non-empty key is configured and the header differs. -/
def apiKeyRejects (configured : String) (header : Option String) : Bool :=
  configured ≠ "" && header ≠ some configured

/-- Body of the `/search` handler after the key check, over the raw list
returned by `search_olx`: fixed page size 20, offset slicing, total count
before pagination, and `next_page` only when the slice end is strictly
below the total. -/
def searchBody (raw : List OlxListing) (page : Int) : SearchResponse :=
  let start := (page - 1) * 20
  let stop := start + 20
  { items := (pySlice raw start stop).map toListing
    count := raw.length
    next_page := if stop < (raw.length : Int) then some (page + 1) else none }

/-- The `/search` handler of `main.py`: a failed key check raises a 401
`HTTPException`, otherwise the paginated body is returned. -/
def searchEndpoint (configured : String) (header : Option String)
    (raw : List OlxListing) (page : Int) : Except Nat SearchResponse :=
  if apiKeyRejects configured header then .error 401
  else .ok (searchBody raw page)

/-- The first-registered `/stats` handler of `main.py` (lines 58-74), the
mock: it takes no listing data at all; its base value depends only on
`ano` (with Python `ano or 2020` treating the year 0 as falsy) and
`updated_at` is the current clock. -/
def statsMock (ano : Option Int) (clock : ℚ) : StatsResponse :=
  let base : Int := match ano with
    | none => 55000
    | some a => max 35000 (60000 - (2025 - (if a = 0 then 2020 else a)) * 2000)
  { n := 62
    media := some (base : ℚ)
    mediana := some ((base : ℚ) * (98 / 100 : ℚ))
    p25 := some ((base : ℚ) * (93 / 100 : ℚ))
    p75 := some ((base : ℚ) * (105 / 100 : ℚ))
    updated_at := clock }

/-- Python `sorted` on rationals: ascending order (insertion formulation;
on values of a total order it returns the same list as any stable sort). -/
def insertSorted (x : ℚ) : List ℚ → List ℚ
  | [] => [x]
  | y :: ys => if x ≤ y then x :: y :: ys else y :: insertSorted x ys

/-- Python `sorted(prices)`. -/
def pySorted (l : List ℚ) : List ℚ :=
  l.foldr insertSorted []

/-- `statistics.median` on a sorted list: the middle element for odd
length, the mean of the two middle elements for even length. -/
def pyMedian (ps : List ℚ) : ℚ :=
  let n := ps.length
  if n % 2 = 1 then ps.getD (n / 2) 0
  else (ps.getD (n / 2 - 1) 0 + ps.getD (n / 2) 0) / 2

/-- The inner `percentile` function of the second `/stats` handler:
fractional rank `k = (n-1)*p`, and linear interpolation between the
entries at `floor k` and `ceil k` (all ranks used are nonnegative, so
`int()` truncation and `floor` agree). -/
def percentile (ps : List ℚ) (p : ℚ) : ℚ :=
  let k : ℚ := ((ps.length : ℚ) - 1) * p
  let f : Int := ⌊k⌋
  let c : Int := ⌈k⌉
  if f = c then ps.getD f.toNat 0
  else ps.getD f.toNat 0 * ((c : ℚ) - k) + ps.getD c.toNat 0 * (k - (f : ℚ))

/-- Body of the second-registered `/stats` handler of `main.py`
(lines 131-186) after the key check, over the listings returned by
`search_olx`: present prices only; count 0 and absent statistics when
there is no price, otherwise count, mean, median and the interpolated
25th/75th percentiles of the sorted prices. -/
def statsBody (listings : List OlxListing) (clock : ℚ) : StatsResponse :=
  let prices := listings.filterMap (fun l => l.preco)
  if prices.isEmpty then
    { n := 0, media := none, mediana := none, p25 := none, p75 := none,
      updated_at := clock }
  else
    let ps := pySorted prices
    { n := ps.length
      media := some (ps.sum / (ps.length : ℚ))
      mediana := some (pyMedian ps)
      p25 := some (percentile ps (1 / 4))
      p75 := some (percentile ps (3 / 4))
      updated_at := clock }

/-- The four route registrations of `main.py`, in source order.  FastAPI
(Starlette) dispatches a request to the first registered route whose path
matches, so a path registered twice is always served by the earlier
handler. -/
inductive HandlerTag where
  | healthH : HandlerTag
  | statsMockH : HandlerTag
  | searchH : HandlerTag
  | statsRealH : HandlerTag
deriving DecidableEq, Repr

/-- The route table built by the decorators of `main.py`, in registration
order: `/health` (line 54), `/stats` mock (line 58), `/search` (line 76),
`/stats` statistics (line 131). -/
def routes : List (String × HandlerTag) :=
  [("/health", .healthH), ("/stats", .statsMockH),
   ("/search", .searchH), ("/stats", .statsRealH)]

/-- First-match dispatch over the route table. -/
def firstHandlerFor (path : String) : Option HandlerTag :=
  (routes.find? (fun r => r.1 = path)).map (fun r => r.2)

/-- Closed form of the card loop: starting below the effective cap, the
loop appends the kept parses of the cards in document order, truncated at
the effective cap `max max_items 1` (the cap test runs only after an
append, so a cap of 0 still admits one listing). -/
lemma extractLoop_closed_form (defTime : ℚ) (modelo : String) (ano : Option Int)
    (cidade : Option String) (max_price : Option ℚ) (max_items : Nat) :
    ∀ (cards : List Card) (acc : List OlxListing),
      acc.length < max max_items 1 →
      extractLoop defTime modelo ano cidade max_price max_items cards acc =
        acc ++ (((cards.filterMap (parseCardOpt defTime modelo ano cidade)).filter
          (keepListing max_price)).take (max max_items 1 - acc.length)) := by
  intro cards
  induction cards with
  | nil => intro acc h; simp [extractLoop]
  | cons card rest ih =>
    intro acc h
    rw [extractLoop]
    cases hp : parseCardOpt defTime modelo ano cidade card with
    | none =>
      rw [ih acc h, List.filterMap_cons, hp]
    | some l =>
      by_cases hk : keepListing max_price l
      · rw [List.filterMap_cons, hp]
        simp only [hk, if_true, List.filter_cons, ite_true]
        have htake : ∀ (tl : List OlxListing),
            (l :: tl).take (max max_items 1 - acc.length) =
              l :: tl.take (max max_items 1 - (acc.length + 1)) := by
          intro tl
          have h1 : max max_items 1 - acc.length = (max max_items 1 - (acc.length + 1)) + 1 := by
            omega
          rw [h1, List.take_succ_cons]
        by_cases hstop : max_items ≤ (acc ++ [l]).length
        · have hlen : (acc ++ [l]).length = acc.length + 1 := by simp
          have hcap : max max_items 1 - acc.length = 1 := by
            rw [hlen] at hstop; omega
          simp only [hstop, if_true, htake, hcap]
          simp
        · have hlen : (acc ++ [l]).length = acc.length + 1 := by simp
          have hlt : (acc ++ [l]).length < max max_items 1 := by
            rw [hlen]; rw [hlen] at hstop; omega
          simp only [hstop, if_false]
          rw [ih (acc ++ [l]) hlt, htake]
          simp [hlen]
      · rw [ih acc h, List.filterMap_cons, hp]
        simp only [List.filter_cons, hk]
        simp

/-- The extractor as one expression: for a 200 response, kept parses in
document order truncated at the effective cap. -/
lemma search_olx_eq_take (defTime : ℚ) (modelo : String) (ano : Option Int)
    (cidade : Option String) (max_price : Option ℚ) (max_items : Nat)
    (cards : List Card) :
    search_olx defTime modelo ano cidade max_price max_items (.success 200 cards) =
      ((cards.filterMap (parseCardOpt defTime modelo ano cidade)).filter
        (keepListing max_price)).take (max max_items 1) := by
  have h := extractLoop_closed_form defTime modelo ano cidade max_price max_items cards []
    (by simp)
  simpa [search_olx] using h

/-- Every listing produced by `search_olx` carries the module-load default
timestamp. -/
lemma mem_search_olx_data_coleta (defTime : ℚ) (modelo : String) (ano : Option Int)
    (cidade : Option String) (max_price : Option ℚ) (max_items : Nat)
    (fetch : FetchResult) :
    ∀ l ∈ search_olx defTime modelo ano cidade max_price max_items fetch,
      l.data_coleta = defTime := by
  intro l hl
  cases fetch with
  | netError => simp [search_olx] at hl
  | success status cards =>
    by_cases hst : status = 200
    · subst hst
      rw [search_olx_eq_take] at hl
      have h1 := List.take_subset _ _ hl
      have h2 := List.mem_of_mem_filter h1
      obtain ⟨card, hcard, hparse⟩ := List.mem_filterMap.mp h2
      unfold parseCardOpt at hparse
      by_cases hr : card.raises
      · simp [hr] at hparse
      · rw [if_neg hr, Option.some.injEq] at hparse
        rw [← hparse]
        rfl
    · simp [search_olx, hst] at hl

/-- Claim C4: every `OlxListing` built without an explicit `data_coleta`
argument — as every listing built by `search_olx` is — receives the single
dataclass default evaluated at definition time, so the listings of any two
fetches all carry the same fixed collection timestamp. -/
theorem data_coleta_single_shared_default (defTime : ℚ)
    (m m2 : String) (a a2 : Option Int) (c c2 : Option String)
    (mp mp2 : Option ℚ) (mi mi2 : Nat) (f f2 : FetchResult) :
    ((search_olx defTime m a c mp mi f)
        ++ (search_olx defTime m2 a2 c2 mp2 mi2 f2)).all
      (fun l => decide (l.data_coleta = defTime)) = true := by
  rw [List.all_eq_true]
  intro l hl
  rcases List.mem_append.mp hl with h | h
  · exact decide_eq_true (mem_search_olx_data_coleta defTime m a c mp mi f l h)
  · exact decide_eq_true (mem_search_olx_data_coleta defTime m2 a2 c2 mp2 mi2 f2 l h)

/-- Claim C5: a network-level failure or a non-200 status makes
`search_olx` return the empty list, and the API layer then shapes an empty
search result and zero-count statistics rather than an error. -/
theorem fetch_failure_yields_empty (defTime : ℚ) (m : String) (a : Option Int)
    (c : Option String) (mp : Option ℚ) (mi : Nat) (f : FetchResult)
    (page : Int) (clock : ℚ)
    (hf : f = .netError ∨ ∃ st cards, f = .success st cards ∧ st ≠ 200) :
    search_olx defTime m a c mp mi f = []
    ∧ (searchBody (search_olx defTime m a c mp mi f) page).items = []
    ∧ (searchBody (search_olx defTime m a c mp mi f) page).count = 0
    ∧ statsBody (search_olx defTime m a c mp mi f) clock =
        ⟨0, none, none, none, none, clock⟩ := by
  have hempty : search_olx defTime m a c mp mi f = [] := by
    rcases hf with h | ⟨st, cards, h, hst⟩
    · rw [h]; rfl
    · rw [h]; simp [search_olx, hst]
  refine ⟨hempty, ?_, ?_, ?_⟩
  · rw [hempty]; simp [searchBody, pySlice]
  · rw [hempty]; rfl
  · rw [hempty]; rfl

/-- Witness for C5 at a concrete input: the network-error fetch for a
`civic` search gives the empty listing list, an empty page and zero-count
statistics. -/
theorem fetch_failure_yields_empty_witness :
    search_olx 0 "civic" none none none 80 .netError = []
    ∧ (searchBody (search_olx 0 "civic" none none none 80 .netError) 1).items = []
    ∧ (searchBody (search_olx 0 "civic" none none none 80 .netError) 1).count = 0
    ∧ statsBody (search_olx 0 "civic" none none none 80 .netError) 0 =
        ⟨0, none, none, none, none, 0⟩ :=
  fetch_failure_yields_empty 0 "civic" none none none 80 .netError 1 0 (Or.inl rfl)

/-- Claim C6: with a price ceiling, every listing kept by the extractor
has no price above the ceiling; the cap is applied only after the price
filter, so discarded cards consume no cap slot; and every page of the
search response, as well as its count, sees only the kept listings. -/
theorem max_price_filter_excludes (defTime : ℚ) (modelo : String)
    (ano : Option Int) (cidade : Option String) (mp : ℚ) (max_items : Nat)
    (cards : List Card) (page : Int) :
    (search_olx defTime modelo ano cidade (some mp) max_items
        (.success 200 cards)).all
      (fun l => match l.preco with | some pr => decide (pr ≤ mp) | none => true) = true
    ∧ search_olx defTime modelo ano cidade (some mp) max_items (.success 200 cards) =
        ((cards.filterMap (parseCardOpt defTime modelo ano cidade)).filter
          (keepListing (some mp))).take (max max_items 1)
    ∧ (searchBody (search_olx defTime modelo ano cidade (some mp) max_items
        (.success 200 cards)) page).items.all
      (fun x => match x.preco with | some pr => decide (pr ≤ mp) | none => true) = true
    ∧ (searchBody (search_olx defTime modelo ano cidade (some mp) max_items
        (.success 200 cards)) page).count =
      (search_olx defTime modelo ano cidade (some mp) max_items
        (.success 200 cards)).length := by
  have hmem : ∀ l ∈ search_olx defTime modelo ano cidade (some mp) max_items
      (.success 200 cards), keepListing (some mp) l = true := by
    intro l hl
    rw [search_olx_eq_take] at hl
    exact (List.mem_filter.mp (List.take_subset _ _ hl)).2
  have hpred : ∀ l : OlxListing, keepListing (some mp) l = true →
      (match l.preco with | some pr => decide (pr ≤ mp) | none => true) = true := by
    intro l h
    unfold keepListing at h
    cases hp : l.preco with
    | none => simp
    | some pr => rw [hp] at h; simpa using h
  refine ⟨?_, search_olx_eq_take defTime modelo ano cidade (some mp) max_items cards,
    ?_, rfl⟩
  · rw [List.all_eq_true]
    intro l hl
    exact hpred l (hmem l hl)
  · rw [List.all_eq_true]
    intro x hx
    obtain ⟨l, hl, hx⟩ := List.mem_map.mp hx
    have hraw : l ∈ search_olx defTime modelo ano cidade (some mp) max_items
        (.success 200 cards) := by
      have := List.drop_subset _ _ hl
      exact List.take_subset _ _ this
    rw [← hx]
    exact hpred l (hmem l hraw)

/-- An ad card in which no title, link, id, price or location element is
selectable, with no detail chips and no traversal exception. -/
def emptyCard : Card :=
  { title := none, href := none, dataId := none, priceText := none,
    locText := none, chips := [], raises := false }

/-- Counterexample to claim C7 as stated for every `maxItems`: with
`max_items = 0` and one parseable card, the extractor still returns one
listing, because the cap test runs only after an append. -/
theorem extractor_cap_zero_counterexample :
    (search_olx 0 "x" none none none 0 (.success 200 [emptyCard])).length = 1
    ∧ ¬ ((search_olx 0 "x" none none none 0 (.success 200 [emptyCard])).length ≤ 0) := by
  refine ⟨by decide, by decide⟩

/-- Claim C7 as amended: for every positive `max_items` the extractor
returns at most `max_items` listings, stops consuming cards as soon as the
cap is reached (appending further cards changes nothing), and its output
is a sublist of the parsed cards in source document order — no sorting. -/
theorem extractor_cap_and_order (defTime : ℚ) (modelo : String)
    (ano : Option Int) (cidade : Option String) (mp : Option ℚ)
    (max_items : Nat) (cards extra : List Card) (hmi : 1 ≤ max_items) :
    (search_olx defTime modelo ano cidade mp max_items
        (.success 200 cards)).length ≤ max_items
    ∧ ((search_olx defTime modelo ano cidade mp max_items
          (.success 200 cards)).length = max_items →
        search_olx defTime modelo ano cidade mp max_items
            (.success 200 (cards ++ extra)) =
          search_olx defTime modelo ano cidade mp max_items
            (.success 200 cards))
    ∧ (search_olx defTime modelo ano cidade mp max_items
        (.success 200 cards)).Sublist
        (cards.filterMap (parseCardOpt defTime modelo ano cidade)) := by
  have hmax : max max_items 1 = max_items := by omega
  have hset := search_olx_eq_take defTime modelo ano cidade mp max_items cards
  refine ⟨?_, ?_, ?_⟩
  · rw [hset, hmax]
    exact List.length_take_le _ _
  · intro hlen
    rw [hset, hmax] at hlen
    have hge : max_items ≤ ((cards.filterMap
        (parseCardOpt defTime modelo ano cidade)).filter (keepListing mp)).length := by
      rw [List.length_take] at hlen
      omega
    rw [hset, search_olx_eq_take, hmax, List.filterMap_append, List.filter_append]
    exact List.take_append_of_le_length hge
  · rw [hset]
    exact (List.take_sublist _ _).trans (List.filter_sublist _)

/-- Witness for C7 at a concrete input: cap 1 over two parseable cards
yields one listing, and a third appended card leaves the result
unchanged. -/
theorem extractor_cap_and_order_witness :
    (search_olx 0 "x" none none none 1
        (.success 200 [emptyCard, emptyCard])).length ≤ 1
    ∧ search_olx 0 "x" none none none 1
          (.success 200 ([emptyCard, emptyCard] ++ [emptyCard])) =
        search_olx 0 "x" none none none 1 (.success 200 [emptyCard, emptyCard])
    ∧ (search_olx 0 "x" none none none 1
        (.success 200 [emptyCard, emptyCard])).Sublist
        ([emptyCard, emptyCard].filterMap (parseCardOpt 0 "x" none none)) := by
  have h := extractor_cap_and_order 0 "x" none none none 1
    [emptyCard, emptyCard] [emptyCard] (by decide)
  exact ⟨h.1, h.2.1 (by decide), h.2.2⟩

/-- Counterexample to claim C9 as stated: the listing produced from a card
with no selectable elements does not carry the empty title; the source
falls back to the string built from the model and the year. -/
theorem empty_card_title_counterexample :
    (search_olx 0 "civic" none none none 80
        (.success 200 [emptyCard])).map (fun l => l.title) = ["civic "]
    ∧ (search_olx 0 "civic" none none none 80
        (.success 200 [emptyCard])).map (fun l => l.title) ≠ [""] := by
  refine ⟨by decide, by decide⟩

/-- Claim C9 as amended: a card with no selectable title, price, location
or detail elements and no traversal exception still produces exactly one
listing rather than being dropped; its price, mileage, transmission and
fuel are absent, its city and year fall back to the input parameters, and
its title is the fallback string built from the model and the year — not
the empty string. -/
theorem empty_card_still_produces_listing (defTime : ℚ) (modelo : String)
    (ano : Option Int) (cidade : Option String) (mp : Option ℚ) (mi : Nat) :
    search_olx defTime modelo ano cidade mp mi (.success 200 [emptyCard]) =
      [{ id := ""
         title := modelo ++ " " ++ (match pyOrInt ano none with
           | none => "" | some y => if y = 0 then "" else toString y)
         url := ""
         modelo := some (pyUpper modelo)
         ano := pyOrInt ano none
         cidade := cidade
         preco := none
         km := none
         cambio := none
         combustivel := none
         fonte := "olx"
         data_coleta := defTime }] := by
  rw [search_olx_eq_take]
  have hparse : [emptyCard].filterMap (parseCardOpt defTime modelo ano cidade) =
      [parseCard defTime modelo ano cidade emptyCard] := by
    simp [parseCardOpt, emptyCard]
  rw [hparse]
  have hkeep : keepListing mp (parseCard defTime modelo ano cidade emptyCard) = true := by
    cases mp with
    | none => rfl
    | some m => rfl
  rw [List.filter_cons, hkeep]
  simp only [List.filter_nil, if_true]
  have htake : ∀ l : OlxListing, [l].take (max mi 1) = [l] := by
    intro l
    have h1 : (1 : Nat) ≤ max mi 1 := le_max_right mi 1
    rcases Nat.exists_eq_add_of_le h1 with ⟨k, hk⟩
    rw [hk, Nat.add_comm, List.take_succ_cons, List.take_nil]
  rw [htake]
  rfl

/-- `pySlice` with nonnegative cast bounds, written with Nat clamping. -/
lemma pySlice_eq_clamp {α : Type} (l : List α) (k b : Nat) :
    pySlice l (k : Int) (b : Int) =
      (l.take (min b l.length)).drop (min k l.length) := by
  have h1 : ¬ ((k : Int) < 0) := by omega
  have h2 : ¬ ((b : Int) < 0) := by omega
  simp only [pySlice]
  rw [if_neg h2, if_neg h1]
  have hA : (min (b : Int) ((l.length : Nat) : Int)).toNat = min b l.length := by omega
  have hB : (min (k : Int) ((l.length : Nat) : Int)).toNat = min k l.length := by omega
  rw [hA, hB]

/-- The slice `l[k : k+20]` of the handler equals dropping the offset and
taking one page. -/
lemma pySlice_start_take {α : Type} (l : List α) (k : Nat) :
    pySlice l (k : Int) ((k : Int) + 20) = (l.drop k).take 20 := by
  have hcast : ((k : Int) + 20) = ((k + 20 : Nat) : Int) := by omega
  rw [hcast, pySlice_eq_clamp, List.drop_take]
  by_cases hk : k ≤ l.length
  · have hmk : min k l.length = k := by omega
    rw [hmk, List.take_eq_take]
    simp only [List.length_drop]
    omega
  · have hmk : min k l.length = l.length := by omega
    have hd : l.drop k = [] := List.drop_eq_nil_iff.mpr (by omega)
    rw [hmk, List.drop_length, hd]
    simp

/-- A concrete raw listing used in the pagination example. -/
def mkListing (i : Nat) : OlxListing :=
  { id := toString i, title := "t", url := "u", modelo := none, ano := none,
    cidade := none, preco := none, km := none, cambio := none,
    combustivel := none, fonte := "olx", data_coleta := 0 }

/-- A fetched raw list of 64 listings. -/
def l64 : List OlxListing := (List.range 64).map mkListing

/-- Claim C3: for every authorized search request and every page `p ≥ 1`,
the response items are the slice `[start : start+20]` of the raw list with
`start = (p-1)*20`, the count is the total before pagination, and
`next_page` is `p+1` exactly when the slice end is below the total; in
particular with 64 raw items page 1 returns the first 20 items with
`next_page = 2` and page 4 returns the last 4 items with `next_page`
absent. -/
theorem search_pagination (cfg : String) (hdr : Option String)
    (raw : List OlxListing) (page : Int) (hp : 1 ≤ page)
    (hauth : cfg = "" ∨ hdr = some cfg) :
    searchEndpoint cfg hdr raw page = .ok
      { items := ((raw.drop (((page - 1) * 20).toNat)).take 20).map toListing
        count := raw.length
        next_page := if (page - 1) * 20 + 20 < (raw.length : Int)
          then some (page + 1) else none }
    ∧ searchEndpoint "" none l64 1 = .ok
        { items := (l64.take 20).map toListing, count := 64, next_page := some 2 }
    ∧ searchEndpoint "" none l64 4 = .ok
        { items := (l64.drop 60).map toListing, count := 64, next_page := none }
    ∧ (l64.drop 60).length = 4 := by
  have hrej : apiKeyRejects cfg hdr = false := by
    rcases hauth with h | h
    · simp [apiKeyRejects, h]
    · simp [apiKeyRejects, h]
  refine ⟨?_, by rfl, by rfl, by rfl⟩
  unfold searchEndpoint
  rw [hrej]
  simp only [Bool.false_eq_true, if_false]
  unfold searchBody
  have hitems : pySlice raw ((page - 1) * 20) ((page - 1) * 20 + 20) =
      (raw.drop (((page - 1) * 20).toNat)).take 20 := by
    have h20 : (page - 1) * 20 = ((((page - 1) * 20).toNat : Nat) : Int) := by omega
    rw [h20]
    exact pySlice_start_take raw _
  simp only [hitems]

/-- Witness for C3 at a concrete input: the authorized page-2 request over
the 64-item raw list. -/
theorem search_pagination_witness :
    searchEndpoint "" none l64 2 = .ok
      { items := ((l64.drop ((((2 : Int) - 1) * 20).toNat)).take 20).map toListing
        count := l64.length
        next_page := if ((2 : Int) - 1) * 20 + 20 < (l64.length : Int)
          then some ((2 : Int) + 1) else none }
    ∧ searchEndpoint "" none l64 1 = .ok
        { items := (l64.take 20).map toListing, count := 64, next_page := some 2 }
    ∧ searchEndpoint "" none l64 4 = .ok
        { items := (l64.drop 60).map toListing, count := 64, next_page := none }
    ∧ (l64.drop 60).length = 4 :=
  search_pagination "" none l64 2 (by decide) (Or.inl rfl)

/-- The mock base value exactly as claim C10 words it:
`max(35000, 60000 - (2025 - ano) * 2000)` when `ano` is present. -/
def c10ClaimBase (ano : Option Int) : Int :=
  match ano with
  | none => 55000
  | some a => max 35000 (60000 - (2025 - a) * 2000)

/-- Counterexample to claim C10 as stated: at `ano = 0` the code computes
`max(35000, 60000 - (2025 - 2020) * 2000) = 50000` because Python
`ano or 2020` treats 0 as falsy, while the claimed formula gives 35000. -/
theorem statsMock_ano_zero_counterexample :
    (statsMock (some 0) 0).media = some ((50000 : Int) : ℚ)
    ∧ c10ClaimBase (some 0) = 35000
    ∧ (statsMock (some 0) 0).media ≠ some ((c10ClaimBase (some 0) : Int) : ℚ) := by
  refine ⟨by norm_num [statsMock], by decide, ?_⟩
  have h1 : (statsMock (some 0) 0).media = some ((50000 : Int) : ℚ) := by
    norm_num [statsMock]
  have h2 : c10ClaimBase (some 0) = 35000 := by decide
  rw [h1, h2]
  norm_num

/-- The first-registered `/stats` handler as claim C10 words it, amended
only where the counterexample forces it: a present `ano = 0` is treated by
Python `ano or 2020` as absent-like and replaced by 2020 before the
formula applies.  Its type shows it never sees fetched listing data. -/
def statsMockClaim (ano : Option Int) (clock : ℚ) : StatsResponse :=
  let base : Int :=
    if ano = none then 55000
    else
      let a := ano.getD 2020
      let aEff := if a = 0 then 2020 else a
      max 35000 (60000 - (2025 - aEff) * 2000)
  { n := 62
    media := some (base : ℚ)
    mediana := some ((base : ℚ) * (98 / 100 : ℚ))
    p25 := some ((base : ℚ) * (93 / 100 : ℚ))
    p75 := some ((base : ℚ) * (105 / 100 : ℚ))
    updated_at := clock }

/-- Claim C10 as amended: the application registers two handlers for
`GET /stats`; the first-registered one is the mock, whose response — for
every `ano` and clock, independent of any fetched listing — is `n = 62`
with the claimed formula for `media` once `ano = 0` is treated as the
falsy default 2020, and `mediana`, `p25`, `p75` the stated multiples. -/
theorem statsMock_matches_claim_formula (ano : Option Int) (clock : ℚ) :
    routes.countP (fun r => r.1 = "/stats") = 2
    ∧ firstHandlerFor "/stats" = some HandlerTag.statsMockH
    ∧ statsMock ano clock = statsMockClaim ano clock := by
  refine ⟨by decide, by decide, ?_⟩
  cases ano with
  | none => rfl
  | some a =>
    by_cases h : a = 0
    · subst h; rfl
    · simp [statsMock, statsMockClaim, h]

/-- A fetched listing whose price is present. -/
def pricedListing (q : ℚ) : OlxListing :=
  { id := "p", title := "t", url := "u", modelo := none, ano := none,
    cidade := none, preco := some q, km := none, cambio := none,
    combustivel := none, fonte := "olx", data_coleta := 0 }

/-- Four fetched listings with prices 30, 10, 40, 20. -/
def demoListings : List OlxListing :=
  [pricedListing 30, pricedListing 10, pricedListing 40, pricedListing 20]

/-- Claim C1 concerns the statistics computation of the second-registered
`/stats` handler: over four listings priced 30, 10, 40, 20 it yields the
count of present prices, their mean 25, median 25, and the R-7
interpolated quartiles `p25 = 17.5` and `p75 = 32.5`.  But the route table
registers the mock handler first for `/stats`, and first-match dispatch
means the served response reports `n = 62` whatever the fetched listings
hold — the claim fails on the served route. -/
theorem stats_computation_correct_but_shadowed :
    statsBody demoListings 0 =
      { n := 4, media := some 25, mediana := some 25,
        p25 := some (35 / 2), p75 := some (65 / 2), updated_at := 0 }
    ∧ firstHandlerFor "/stats" = some HandlerTag.statsMockH
    ∧ (statsMock none 0).n = 62
    ∧ (statsMock none 0).n ≠ (statsBody demoListings 0).n := by
  have hprices : demoListings.filterMap (fun l => l.preco) = [30, 10, 40, 20] := rfl
  have hsort : pySorted [30, 10, 40, 20] = [10, 20, 30, 40] := by decide
  have h25 : percentile [10, 20, 30, 40] (1 / 4) = 35 / 2 := by
    have hc : (⌈(3 / 4 : ℚ)⌉ : Int) = 1 := by norm_num [Int.ceil_eq_iff]
    norm_num [percentile, Int.floor_eq_iff, hc]
  have h75 : percentile [10, 20, 30, 40] (3 / 4) = 65 / 2 := by
    have hc : (⌈(9 / 4 : ℚ)⌉ : Int) = 3 := by norm_num [Int.ceil_eq_iff]
    have h2 : Int.toNat 2 = 2 := rfl
    have h3 : Int.toNat 3 = 3 := rfl
    norm_num [percentile, Int.floor_eq_iff, hc, h2, h3]
  have hmed : pyMedian [10, 20, 30, 40] = 25 := by norm_num [pyMedian]
  have hbody : statsBody demoListings 0 =
      { n := 4, media := some 25, mediana := some 25,
        p25 := some (35 / 2), p75 := some (65 / 2), updated_at := 0 } := by
    simp only [statsBody, hprices, List.isEmpty_cons, Bool.false_eq_true, if_false,
      hsort, h25, h75, hmed]
    norm_num
  exact ⟨hbody, by decide, rfl, by rw [hbody]; decide⟩

/-- Claim C2 concerns the zero-price branch of the second-registered
`/stats` handler: with no present price it returns `n = 0` and all four
statistics fields absent, as a normal response.  The served `/stats`
response, however, comes from the first-registered mock handler, which
returns `n = 62` with every field present regardless of the fetch. -/
theorem stats_zero_prices_correct_but_shadowed :
    statsBody [mkListing 0] 0 = ⟨0, none, none, none, none, 0⟩
    ∧ statsBody [] 0 = ⟨0, none, none, none, none, 0⟩
    ∧ firstHandlerFor "/stats" = some HandlerTag.statsMockH
    ∧ (statsMock none 0).n = 62
    ∧ (statsMock none 0).media ≠ none := by
  refine ⟨rfl, rfl, by decide, rfl, ?_⟩
  have h1 : (statsMock none 0).media = some ((55000 : Int) : ℚ) := rfl
  rw [h1]
  simp

end CarFetcher
